import Mathlib

/-!
Verification development for the WorkspaceSearchAgent aggregation engine.

The definitions below are a shallow embedding of the repository code,
chiefly `app/services/search_service.py`, `app/utils/auth.py`,
`app/models/models.py` and the snippet handling in
`app/adapters/google_drive_adapter.py`.

Modelling conventions:
- Python strings are Lean `String`; slicing `s[:n]` (for `n ≥ 0`) is `pyTake`.
- Python `sep.join(parts)` is `pyJoin`.
- `hashlib.md5(key_string).hexdigest()` in `_get_cache_key` is modelled by the
  preimage `key_string` itself: the digest is a deterministic function of the
  key string, and the development treats it as injective (collisions of MD5
  are outside the model).
- The `TTLCache` stores are modelled as association lists keyed by the cache
  key string; insertion conses a binding (later bindings shadow earlier ones,
  matching dict overwrite semantics).  TTL expiry and capacity eviction are
  not modelled since no claim depends on time.
- Adapter network I/O is nondeterministic; an adapter is modelled as an
  oracle record of three functions returning `Except` (a raised exception is
  `Except.error`).  `initialize_adapters` returns a map from sources to
  adapters; the service functions take that map as a parameter.
- `DocumentSource` is a `str`-mixin enum.  Rendering a member inside an
  f-string (as in `f"{source}:read"`) yields the member value, e.g.
  "gdrive" (the behaviour under which the repository tests grant scopes such
  as "gdrive:read"); `str(source)` (used in cache keys) yields the qualified
  form, e.g. "DocumentSource.gdrive".  Both renderings are injective.
- `max_results`, `days` and `max_length` are modelled as `Nat`; the request
  models in `app/models/models.py` validate them to positive ranges before
  they reach the service layer.
-/

namespace WSA

/-- The `DocumentSource` enumeration from `app/models/models.py`:
a closed set of document sources. -/
inductive DocumentSource where
  | gdrive
  | notion
  | slack
  | confluence
deriving DecidableEq, Repr

/-- The enum member value, which is also what an f-string interpolation of a
member produces (used to build scope strings such as "gdrive:read"). -/
def DocumentSource.value : DocumentSource → String
  | .gdrive => "gdrive"
  | .notion => "notion"
  | .slack => "slack"
  | .confluence => "confluence"

/-- `str(source)` for a `DocumentSource` member, as used in the cache-key
derivation `sorted([str(s) for s in sources])`. -/
def DocumentSource.pyStr (s : DocumentSource) : String :=
  "DocumentSource." ++ s.value

/-- Dictionary lookup of a raw string against the `str`-mixin enum members:
a string equals a member exactly when it equals the member value.  Used by
`summarize_content`, which looks the parsed source string up in the adapter
map. -/
def sourceOfString (s : String) : Option DocumentSource :=
  if s = "gdrive" then some DocumentSource.gdrive
  else if s = "notion" then some DocumentSource.notion
  else if s = "slack" then some DocumentSource.slack
  else if s = "confluence" then some DocumentSource.confluence
  else none

/-- The caller identity context, with the fields the service layer actually
reads: `user_id` (cache keys), `authenticated` (rejection check, also read
by `has_required_scopes`), and `access_scopes` (scope membership).  These are
the fields constructed in `app/utils/auth.py`. -/
structure UserContext where
  user_id : String
  email : String
  authenticated : Bool
  access_scopes : List String
deriving DecidableEq, Repr

/-- `SearchResult` from `app/models/models.py` (the `metadata` dict, unused by
the aggregation logic, is omitted). -/
structure SearchResult where
  id : String
  title : String
  snippet : String
  url : String
  source : DocumentSource
  last_modified : String
  author : String
  access_level : String
deriving DecidableEq, Repr

/-- `RecentUpdate` from `app/models/models.py`: the shape of `SearchResult`
plus an `update_type`. -/
structure RecentUpdate where
  id : String
  title : String
  snippet : String
  url : String
  source : DocumentSource
  last_modified : String
  author : String
  update_type : String
deriving DecidableEq, Repr

/-- `DocumentContent` from `app/models/models.py`. -/
structure DocumentContent where
  id : String
  title : String
  content : String
  source : DocumentSource
  url : String
  last_modified : String
  author : String
deriving DecidableEq, Repr

/-- `SourceDocument` as constructed by `generate_summary` in
`app/services/search_service.py` (the class itself is imported there from
`app.models.models` but its declaration is absent from `models.py`; its shape
is fully determined by the construction site). -/
structure SourceDocument where
  id : String
  title : String
  source : DocumentSource
deriving DecidableEq, Repr

/-- `SummaryResult` as constructed by `generate_summary` in
`app/services/search_service.py` (declaration likewise absent from
`models.py`; shape determined by the construction site). -/
structure SummaryResult where
  summary : String
  key_points : List String
  source_documents : List SourceDocument
deriving DecidableEq, Repr

/-- Python slicing `s[:n]` for a nonnegative bound `n`. -/
def pyTake (s : String) (n : Nat) : String :=
  String.mk (s.data.take n)

/-- Python `sep.join(parts)`. -/
def pyJoin (sep : String) : List String → String
  | [] => ""
  | [a] => a
  | a :: b :: rest => a ++ sep ++ pyJoin sep (b :: rest)

/-- `has_required_scopes` from `app/utils/auth.py`: `False` for an
unauthenticated context, otherwise membership of every required scope in the
granted scope list. -/
def has_required_scopes (uc : UserContext) (required_scopes : List String) : Bool :=
  if uc.authenticated = false then false
  else required_scopes.all (fun s => uc.access_scopes.contains s)

/-- `_get_cache_key` from `app/services/search_service.py`:
`key_string = prefix + ":" + ":".join(str(arg) for arg in args)`, then the
MD5 hexdigest of `key_string`.  The digest is modelled by the key string
itself (see the header comment). -/
def _get_cache_key (pre : String) (args : List String) : String :=
  pre ++ ":" ++ pyJoin ":" args

/-- Python `sorted` on a list of strings (lexicographic order on code
points), used to canonicalize set-valued cache-key components.  Modelled by
insertion sort over the linear order on `String`. -/
def sortStrings (l : List String) : List String :=
  List.insertionSort (· ≤ ·) l

/-- The cache key derived by `search_documents`:
`_get_cache_key("search", query, ",".join(sorted([str(s) for s in sources])), max_results, user_context.user_id)`. -/
def search_cache_key (query : String) (sources : List DocumentSource)
    (max_results : Nat) (uc : UserContext) : String :=
  _get_cache_key "search"
    [query, pyJoin "," (sortStrings (sources.map DocumentSource.pyStr)),
     toString max_results, uc.user_id]

/-- The cache key derived by `get_recent_updates`:
`_get_cache_key("updates", ",".join(sorted([str(s) for s in sources])), days, max_results, user_context.user_id)`. -/
def updates_cache_key (sources : List DocumentSource) (days : Nat)
    (max_results : Nat) (uc : UserContext) : String :=
  _get_cache_key "updates"
    [pyJoin "," (sortStrings (sources.map DocumentSource.pyStr)),
     toString days, toString max_results, uc.user_id]

/-- The cache key derived by `summarize_content`:
`_get_cache_key("summarize", ",".join(sorted(document_ids)), max_length, user_context.user_id)`. -/
def summarize_cache_key (document_ids : List String) (max_length : Nat)
    (uc : UserContext) : String :=
  _get_cache_key "summarize"
    [pyJoin "," (sortStrings document_ids), toString max_length, uc.user_id]

/-- Splitting a character list at the first colon:
`splitFirstColon cs = some (a, b)` when `cs = a ++ ':' :: b` with `a`
colon-free, and `none` when `cs` holds no colon. -/
def splitFirstColon : List Char → Option (List Char × List Char)
  | [] => none
  | c :: cs =>
    if c = ':' then some ([], cs)
    else
      match splitFirstColon cs with
      | none => none
      | some p => some (c :: p.1, p.2)

/-- The per-id parsing step of `summarize_content`
(`parts = doc_id.split(":", 1)` followed by the `len(parts) != 2` check):
`some (source, native)` splits the id at the first colon only; `none` means
the id holds no colon and `summarize_content` skips it. -/
def parse_doc_id (doc_id : String) : Option (String × String) :=
  match splitFirstColon doc_id.data with
  | none => none
  | some p => some (String.mk p.1, String.mk p.2)

/-- The snippet truncation applied by the Google Drive adapter when building
`SearchResult`/`RecentUpdate` values
(`snippet[:200] + "..." if len(snippet) > 200 else snippet`). -/
def truncate_snippet (snippet : String) : String :=
  if snippet.length > 200 then pyTake snippet 200 ++ "..." else snippet

/-- `generate_summary` from `app/services/search_service.py`: join the
document contents with single spaces, truncate to `max_length`, attach fixed
placeholder key points and one `SourceDocument` per input document. -/
def generate_summary (documents : List DocumentContent) (max_length : Nat) :
    SummaryResult :=
  let combined_text := pyJoin " " (documents.map (fun doc => doc.content))
  let truncated_summary := pyTake combined_text max_length
  { summary := truncated_summary
    key_points := ["Key point 1", "Key point 2", "Key point 3"]
    source_documents :=
      documents.map (fun doc =>
        { id := doc.id, title := doc.title, source := doc.source }) }

/-- The Source Adapter contract as consumed by the service layer: the three
operations of an adapter instance, with network I/O abstracted as an oracle
(a raised exception is `Except.error`). -/
structure Adapter where
  search : String → Nat → Except String (List SearchResult)
  get_document : String → Except String DocumentContent
  get_recent_updates : Nat → Except String (List RecentUpdate)

/-- The adapter dictionary built by `initialize_adapters`:
`adapters.get(source)` is `Option`-valued lookup. -/
abbrev AdapterMap : Type :=
  DocumentSource → Option Adapter

/-- `initialize_adapters` from `app/services/search_service.py`: only the
Google Drive adapter is registered (the other three registrations are
commented out in the source); the constructed `GoogleDriveAdapter` instance
is abstracted as the given oracle. -/
def init_adapters (gdrive_adapter : Adapter) : AdapterMap :=
  fun s =>
    match s with
    | .gdrive => some gdrive_adapter
    | _ => none

/-- One of the module-level `TTLCache` stores, as an association list from
cache-key strings to values (see the header comment). -/
abbrev Cache (α : Type) : Type :=
  List (String × α)

/-- Membership test plus read (`key in cache` / `cache[key]`). -/
def cacheFind {α : Type} (cache : Cache α) (key : String) : Option α :=
  match cache with
  | [] => none
  | (k, v) :: rest => if k == key then some v else cacheFind rest key

/-- `cache[key] = value`: a later binding shadows an earlier one. -/
def cachePut {α : Type} (cache : Cache α) (key : String) (value : α) : Cache α :=
  (key, value) :: cache

/-- The per-source body of the `search_documents` loop: a denied scope, a
missing adapter, or a raising adapter contributes no results; a successful
adapter contributes its result list unchanged. -/
def search_contribution (adapters : AdapterMap) (query : String)
    (max_results : Nat) (uc : UserContext) (source : DocumentSource) :
    List SearchResult :=
  if has_required_scopes uc [source.value ++ ":read"] = false then []
  else
    match adapters source with
    | none => []
    | some ad =>
      match ad.search query max_results with
      | Except.ok rs => rs
      | Except.error _ => []

/-- Which adapters the `search_documents` loop invokes for one source: the
adapter is called exactly when the scope check passes and an adapter is
registered (whether or not the call then raises). -/
def search_invoked (adapters : AdapterMap) (uc : UserContext)
    (source : DocumentSource) : List DocumentSource :=
  if has_required_scopes uc [source.value ++ ":read"] = false then []
  else
    match adapters source with
    | none => []
    | some _ => [source]

/-- The outcome of one `search_documents` call: the returned value or raised
exception, the search cache after the call, and the adapters invoked. -/
structure SearchOutput where
  result : Except String (List SearchResult)
  cacheAfter : Cache (List SearchResult)
  invoked : List DocumentSource

/-- The cache-miss path of `search_documents`: authentication check, then
the permission-filtered fan-out loop, truncation to `max_results`, and the
cache write. -/
def search_miss (query : String) (sources : List DocumentSource)
    (max_results : Nat) (uc : UserContext) (adapters : AdapterMap)
    (cacheEnabled : Bool) (cache : Cache (List SearchResult))
    (cache_key : String) : SearchOutput :=
  if uc.authenticated = false then
    { result := Except.error "User is not authenticated"
      cacheAfter := cache
      invoked := [] }
  else
    let results :=
      sources.flatMap (search_contribution adapters query max_results uc)
    let final := results.take max_results
    { result := Except.ok final
      cacheAfter := if cacheEnabled then cachePut cache cache_key final else cache
      invoked := sources.flatMap (search_invoked adapters uc) }

/-- `search_documents` from `app/services/search_service.py`.  Note the
source order of operations: the cache key is derived and the cache is
consulted before the authentication check. -/
def search_documents (query : String) (sources : List DocumentSource)
    (max_results : Nat) (uc : UserContext) (adapters : AdapterMap)
    (cacheEnabled : Bool) (cache : Cache (List SearchResult)) : SearchOutput :=
  let cache_key := search_cache_key query sources max_results uc
  if cacheEnabled then
    match cacheFind cache cache_key with
    | some cached => { result := Except.ok cached, cacheAfter := cache, invoked := [] }
    | none => search_miss query sources max_results uc adapters cacheEnabled cache cache_key
  else
    search_miss query sources max_results uc adapters cacheEnabled cache cache_key

/-- The descending comparison used by `get_recent_updates`
(`sorted(updates, key=lambda x: x.last_modified, reverse=True)`):
`u` may precede `v` when `v.last_modified ≤ u.last_modified`. -/
def updDesc (u v : RecentUpdate) : Prop :=
  v.last_modified ≤ u.last_modified

instance : DecidableRel updDesc :=
  fun u v => inferInstanceAs (Decidable (v.last_modified ≤ u.last_modified))

instance : IsTotal RecentUpdate updDesc :=
  ⟨fun u v => le_total v.last_modified u.last_modified⟩

instance : IsTrans RecentUpdate updDesc :=
  ⟨fun _ _ _ h1 h2 => le_trans h2 h1⟩

/-- Python `sorted(updates, key=lambda x: x.last_modified, reverse=True)`:
a stable sort placing larger `last_modified` first and keeping elements with
equal `last_modified` in their input order.  A stable sort is determined
extensionally by these two properties, so the insertion sort below is the
exact model (stability is proved further down). -/
def pySortDesc (updates : List RecentUpdate) : List RecentUpdate :=
  List.insertionSort updDesc updates

/-- The per-source body of the `get_recent_updates` loop. -/
def updates_contribution (adapters : AdapterMap) (days : Nat)
    (uc : UserContext) (source : DocumentSource) : List RecentUpdate :=
  if has_required_scopes uc [source.value ++ ":read"] = false then []
  else
    match adapters source with
    | none => []
    | some ad =>
      match ad.get_recent_updates days with
      | Except.ok us => us
      | Except.error _ => []

/-- Which adapters the `get_recent_updates` loop invokes for one source. -/
def updates_invoked (adapters : AdapterMap) (uc : UserContext)
    (source : DocumentSource) : List DocumentSource :=
  if has_required_scopes uc [source.value ++ ":read"] = false then []
  else
    match adapters source with
    | none => []
    | some _ => [source]

/-- The outcome of one `get_recent_updates` call. -/
structure UpdatesOutput where
  result : Except String (List RecentUpdate)
  cacheAfter : Cache (List RecentUpdate)
  invoked : List DocumentSource

/-- The cache-miss path of `get_recent_updates`: authentication check,
fan-out, stable descending sort by `last_modified`, truncation, cache
write. -/
def updates_miss (sources : List DocumentSource) (days : Nat)
    (max_results : Nat) (uc : UserContext) (adapters : AdapterMap)
    (cacheEnabled : Bool) (cache : Cache (List RecentUpdate))
    (cache_key : String) : UpdatesOutput :=
  if uc.authenticated = false then
    { result := Except.error "User is not authenticated"
      cacheAfter := cache
      invoked := [] }
  else
    let updates := sources.flatMap (updates_contribution adapters days uc)
    let sorted_updates := pySortDesc updates
    let result := sorted_updates.take max_results
    { result := Except.ok result
      cacheAfter := if cacheEnabled then cachePut cache cache_key result else cache
      invoked := sources.flatMap (updates_invoked adapters uc) }

/-- `get_recent_updates` from `app/services/search_service.py`.  As with
search, the cache is consulted before the authentication check. -/
def get_recent_updates (sources : List DocumentSource) (days : Nat)
    (max_results : Nat) (uc : UserContext) (adapters : AdapterMap)
    (cacheEnabled : Bool) (cache : Cache (List RecentUpdate)) : UpdatesOutput :=
  let cache_key := updates_cache_key sources days max_results uc
  if cacheEnabled then
    match cacheFind cache cache_key with
    | some cached => { result := Except.ok cached, cacheAfter := cache, invoked := [] }
    | none => updates_miss sources days max_results uc adapters cacheEnabled cache cache_key
  else
    updates_miss sources days max_results uc adapters cacheEnabled cache cache_key

/-- The per-id body of the `summarize_content` loop: parse the composite id
at its first colon (skip when no colon is present), check the scope built
from the raw source string, look the string up in the adapter dictionary,
then fetch.  Returns the documents contributed (at most one) together with
the adapter fetches performed (source and native id). -/
def summarize_contribution (adapters : AdapterMap) (uc : UserContext)
    (doc_id : String) : List DocumentContent × List (DocumentSource × String) :=
  match parse_doc_id doc_id with
  | none => ([], [])
  | some (source, native) =>
    if has_required_scopes uc [source ++ ":read"] = false then ([], [])
    else
      match sourceOfString source with
      | none => ([], [])
      | some ds =>
        match adapters ds with
        | none => ([], [])
        | some ad =>
          match ad.get_document native with
          | Except.ok doc => ([doc], [(ds, native)])
          | Except.error _ => ([], [(ds, native)])

/-- The documents collected by the `summarize_content` loop, in id order. -/
def summarize_docs (adapters : AdapterMap) (uc : UserContext)
    (document_ids : List String) : List DocumentContent :=
  document_ids.flatMap (fun i => (summarize_contribution adapters uc i).1)

/-- The adapter fetches performed by the `summarize_content` loop. -/
def summarize_fetches (adapters : AdapterMap) (uc : UserContext)
    (document_ids : List String) : List (DocumentSource × String) :=
  document_ids.flatMap (fun i => (summarize_contribution adapters uc i).2)

/-- The outcome of one `summarize_content` call. -/
structure SummarizeOutput where
  result : Except String SummaryResult
  cacheAfter : Cache SummaryResult
  invoked : List (DocumentSource × String)

/-- The cache-miss path of `summarize_content`. -/
def summarize_miss (document_ids : List String) (max_length : Nat)
    (uc : UserContext) (adapters : AdapterMap) (cacheEnabled : Bool)
    (cache : Cache SummaryResult) (cache_key : String) : SummarizeOutput :=
  if uc.authenticated = false then
    { result := Except.error "User is not authenticated"
      cacheAfter := cache
      invoked := [] }
  else
    let documents := summarize_docs adapters uc document_ids
    let summary := generate_summary documents max_length
    { result := Except.ok summary
      cacheAfter := if cacheEnabled then cachePut cache cache_key summary else cache
      invoked := summarize_fetches adapters uc document_ids }

/-- `summarize_content` from `app/services/search_service.py`.  As with the
other operations, the cache is consulted before the authentication check. -/
def summarize_content (document_ids : List String) (max_length : Nat)
    (uc : UserContext) (adapters : AdapterMap) (cacheEnabled : Bool)
    (cache : Cache SummaryResult) : SummarizeOutput :=
  let cache_key := summarize_cache_key document_ids max_length uc
  if cacheEnabled then
    match cacheFind cache cache_key with
    | some cached => { result := Except.ok cached, cacheAfter := cache, invoked := [] }
    | none => summarize_miss document_ids max_length uc adapters cacheEnabled cache cache_key
  else
    summarize_miss document_ids max_length uc adapters cacheEnabled cache cache_key

/-! ### Concrete fixtures used by witnesses and counterexamples -/

/-- A concrete Google Drive search result (attributed to `gdrive`, as the
adapter constructs its results with `source=DocumentSource.gdrive`). -/
def resGdrive : SearchResult :=
  { id := "gdrive:doc1", title := "Budget", snippet := "numbers"
    url := "https://example.com/doc1", source := DocumentSource.gdrive
    last_modified := "2026-01-02T00:00:00", author := "alice"
    access_level := "viewer" }

/-- A concrete Notion search result. -/
def resNotion : SearchResult :=
  { id := "notion:p1", title := "Notes", snippet := "text"
    url := "https://example.com/p1", source := DocumentSource.notion
    last_modified := "2026-01-03T00:00:00", author := "bob"
    access_level := "viewer" }

/-- A concrete Google Drive recent update. -/
def updGdrive : RecentUpdate :=
  { id := "gdrive:doc1", title := "Budget", snippet := "numbers"
    url := "https://example.com/doc1", source := DocumentSource.gdrive
    last_modified := "2026-01-02T00:00:00", author := "alice"
    update_type := "modified" }

/-- A concrete Google Drive document content. -/
def docGdrive : DocumentContent :=
  { id := "gdrive:doc1", title := "Budget", content := "hello world"
    source := DocumentSource.gdrive, url := "https://example.com/doc1"
    last_modified := "2026-01-02T00:00:00", author := "alice" }

/-- A Google Drive adapter oracle whose calls all succeed. -/
def gdriveStubOk : Adapter :=
  { search := fun _ _ => Except.ok [resGdrive]
    get_document := fun _ => Except.ok docGdrive
    get_recent_updates := fun _ => Except.ok [updGdrive] }

/-- A Google Drive adapter oracle whose calls all raise. -/
def gdriveStubFail : Adapter :=
  { search := fun _ _ => Except.error "network down"
    get_document := fun _ => Except.error "network down"
    get_recent_updates := fun _ => Except.error "network down" }

/-- A Notion adapter oracle whose calls all succeed. -/
def notionStubOk : Adapter :=
  { search := fun _ _ => Except.ok [resNotion]
    get_document := fun _ => Except.error "not found"
    get_recent_updates := fun _ => Except.ok [] }

/-- The adapter registry of the source with the successful Drive oracle. -/
def adaptersFix : AdapterMap :=
  init_adapters gdriveStubOk

/-- A two-adapter registry: the Drive adapter raises, the Notion adapter
succeeds. -/
def adaptersAB : AdapterMap :=
  fun s =>
    match s with
    | .gdrive => some gdriveStubFail
    | .notion => some notionStubOk
    | _ => none

/-- A two-adapter registry in which every adapter raises. -/
def adaptersAllFail : AdapterMap :=
  fun s =>
    match s with
    | .gdrive => some gdriveStubFail
    | .notion => some gdriveStubFail
    | _ => none

/-- An authenticated caller holding the Drive read scope. -/
def ucAliceFull : UserContext :=
  { user_id := "alice", email := "alice@example.com", authenticated := true
    access_scopes := ["gdrive:read"] }

/-- The same caller after scope revocation: still authenticated, no scopes. -/
def ucAliceRevoked : UserContext :=
  { user_id := "alice", email := "alice@example.com", authenticated := true
    access_scopes := [] }

/-- The same caller identifier with an unauthenticated context. -/
def ucAliceUnauth : UserContext :=
  { user_id := "alice", email := "alice@example.com", authenticated := false
    access_scopes := ["gdrive:read"] }

/-- A different caller. -/
def ucBob : UserContext :=
  { user_id := "bob", email := "bob@example.com", authenticated := true
    access_scopes := ["gdrive:read"] }

/-- An authenticated caller holding both Drive and Notion read scopes. -/
def ucBoth : UserContext :=
  { user_id := "carol", email := "carol@example.com", authenticated := true
    access_scopes := ["gdrive:read", "notion:read"] }

/-- The search cache produced by an authenticated Drive search by alice
starting from an empty cache. -/
def cacheAfterSearch : Cache (List SearchResult) :=
  (search_documents "q" [DocumentSource.gdrive] 10 ucAliceFull adaptersFix true []).cacheAfter

/-- The updates cache produced by an authenticated call by alice starting
from an empty cache. -/
def cacheAfterUpdates : Cache (List RecentUpdate) :=
  (get_recent_updates [DocumentSource.gdrive] 7 10 ucAliceFull adaptersFix true []).cacheAfter

/-- The summary cache produced by an authenticated call by alice starting
from an empty cache. -/
def cacheAfterSummary : Cache SummaryResult :=
  (summarize_content ["gdrive:doc1"] 100 ucAliceFull adaptersFix true []).cacheAfter

/-- A 250-character snippet. -/
def snippet250 : String :=
  String.mk (List.replicate 250 'a')

/-! ### Helper lemmas -/

/-- Left cancellation for string concatenation. -/
theorem string_append_cancel_left {a b c : String} (h : a ++ b = a ++ c) :
    b = c := by
  apply String.ext
  have h2 := congrArg String.data h
  simp only [String.data_append] at h2
  exact List.append_cancel_left h2

/-- `pyJoin` on a cons with a nonempty tail. -/
theorem pyJoin_cons_of_ne_nil (sep a : String) (l : List String) (h : l ≠ []) :
    pyJoin sep (a :: l) = a ++ sep ++ pyJoin sep l := by
  cases l with
  | nil => exact absurd rfl h
  | cons b rest => rfl

/-- The last component of a colon join determines itself: two joins that
agree and differ only in the final component force that component equal. -/
theorem pyJoin_colon_last_inj :
    ∀ (args : List String) (u1 u2 : String),
      pyJoin ":" (args ++ [u1]) = pyJoin ":" (args ++ [u2]) → u1 = u2 := by
  intro args
  induction args with
  | nil =>
    intro u1 u2 h
    simpa [pyJoin] using h
  | cons a rest ih =>
    intro u1 u2 h
    rw [List.cons_append, List.cons_append,
      pyJoin_cons_of_ne_nil _ _ _ (by simp), pyJoin_cons_of_ne_nil _ _ _ (by simp)] at h
    exact ih u1 u2 (string_append_cancel_left h)

/-- `_get_cache_key` is injective in its final argument. -/
theorem cache_key_last_inj (p : String) (args : List String) {u1 u2 : String}
    (h : _get_cache_key p (args ++ [u1]) = _get_cache_key p (args ++ [u2])) :
    u1 = u2 := by
  unfold _get_cache_key at h
  exact pyJoin_colon_last_inj args u1 u2 (string_append_cancel_left h)

/-- Sorting canonicalizes permuted string lists to a common form. -/
theorem sortStrings_eq_of_perm {l1 l2 : List String} (h : l1.Perm l2) :
    sortStrings l1 = sortStrings l2 :=
  List.eq_of_perm_of_sorted
    (((List.perm_insertionSort _ l1).trans h).trans (List.perm_insertionSort _ l2).symm)
    (List.sorted_insertionSort _ l1) (List.sorted_insertionSort _ l2)

/-- A cache-miss `search_documents` call reduces to the miss path. -/
theorem search_documents_of_miss (query : String) (sources : List DocumentSource)
    (max_results : Nat) (uc : UserContext) (adapters : AdapterMap)
    (cacheEnabled : Bool) (cache : Cache (List SearchResult))
    (h : cacheFind cache (search_cache_key query sources max_results uc) = none) :
    search_documents query sources max_results uc adapters cacheEnabled cache
      = search_miss query sources max_results uc adapters cacheEnabled cache
          (search_cache_key query sources max_results uc) := by
  unfold search_documents
  cases cacheEnabled <;> simp [h]

/-- A cache-miss `get_recent_updates` call reduces to the miss path. -/
theorem get_recent_updates_of_miss (sources : List DocumentSource) (days : Nat)
    (max_results : Nat) (uc : UserContext) (adapters : AdapterMap)
    (cacheEnabled : Bool) (cache : Cache (List RecentUpdate))
    (h : cacheFind cache (updates_cache_key sources days max_results uc) = none) :
    get_recent_updates sources days max_results uc adapters cacheEnabled cache
      = updates_miss sources days max_results uc adapters cacheEnabled cache
          (updates_cache_key sources days max_results uc) := by
  unfold get_recent_updates
  cases cacheEnabled <;> simp [h]

/-- Membership in a per-source search contribution forces a passed scope
check, a registered adapter and a successful adapter call. -/
theorem mem_search_contribution {adapters : AdapterMap} {query : String}
    {max_results : Nat} {uc : UserContext} {src : DocumentSource} {r : SearchResult}
    (h : r ∈ search_contribution adapters query max_results uc src) :
    has_required_scopes uc [src.value ++ ":read"] = true
      ∧ ∃ ad rs, adapters src = some ad
          ∧ ad.search query max_results = Except.ok rs ∧ r ∈ rs := by
  unfold search_contribution at h
  cases hsc : has_required_scopes uc [src.value ++ ":read"] with
  | false => simp [hsc] at h
  | true =>
    simp [hsc] at h
    cases had : adapters src with
    | none => simp [had] at h
    | some ad =>
      simp only [had] at h
      cases hres : ad.search query max_results with
      | ok rs =>
        simp only [hres] at h
        exact ⟨rfl, ad, rs, rfl, hres, h⟩
      | error e => simp [hres] at h

/-- Membership in a per-source updates contribution forces a passed scope
check, a registered adapter and a successful adapter call. -/
theorem mem_updates_contribution {adapters : AdapterMap} {days : Nat}
    {uc : UserContext} {src : DocumentSource} {u : RecentUpdate}
    (h : u ∈ updates_contribution adapters days uc src) :
    has_required_scopes uc [src.value ++ ":read"] = true
      ∧ ∃ ad us, adapters src = some ad
          ∧ ad.get_recent_updates days = Except.ok us ∧ u ∈ us := by
  unfold updates_contribution at h
  cases hsc : has_required_scopes uc [src.value ++ ":read"] with
  | false => simp [hsc] at h
  | true =>
    simp [hsc] at h
    cases had : adapters src with
    | none => simp [had] at h
    | some ad =>
      simp only [had] at h
      cases hres : ad.get_recent_updates days with
      | ok us =>
        simp only [hres] at h
        exact ⟨rfl, ad, us, rfl, hres, h⟩
      | error e => simp [hres] at h

/-- An adapter recorded as invoked by the search loop is the loop source
itself, with its scope check passed. -/
theorem mem_search_invoked {adapters : AdapterMap} {uc : UserContext}
    {src x : DocumentSource} (h : x ∈ search_invoked adapters uc src) :
    x = src ∧ has_required_scopes uc [src.value ++ ":read"] = true := by
  unfold search_invoked at h
  cases hsc : has_required_scopes uc [src.value ++ ":read"] with
  | false => simp [hsc] at h
  | true =>
    simp [hsc] at h
    cases had : adapters src with
    | none => simp [had] at h
    | some ad =>
      simp [had] at h
      exact ⟨h, rfl⟩

/-- An adapter recorded as invoked by the updates loop is the loop source
itself, with its scope check passed. -/
theorem mem_updates_invoked {adapters : AdapterMap} {uc : UserContext}
    {src x : DocumentSource} (h : x ∈ updates_invoked adapters uc src) :
    x = src ∧ has_required_scopes uc [src.value ++ ":read"] = true := by
  unfold updates_invoked at h
  cases hsc : has_required_scopes uc [src.value ++ ":read"] with
  | false => simp [hsc] at h
  | true =>
    simp [hsc] at h
    cases had : adapters src with
    | none => simp [had] at h
    | some ad =>
      simp [had] at h
      exact ⟨h, rfl⟩

/-- Inserting an element whose key equals `t` prepends it to the key-`t`
subsequence: every element the insertion skips has a strictly larger key. -/
theorem filter_orderedInsert_key_eq (a : RecentUpdate) (t : String)
    (ha : a.last_modified = t) :
    ∀ l : List RecentUpdate,
      (List.orderedInsert updDesc a l).filter (fun u => u.last_modified == t)
        = a :: l.filter (fun u => u.last_modified == t)
  | [] => by simp [List.orderedInsert, ha]
  | b :: l => by
    by_cases hr : updDesc a b
    · rw [List.orderedInsert_of_le _ _ hr]
      simp [List.filter_cons, ha]
    · have hb : ¬ b.last_modified = t := by
        intro hb
        exact hr (le_of_eq (hb.trans ha.symm))
      simp only [List.orderedInsert, if_neg hr]
      rw [List.filter_cons, List.filter_cons,
        if_neg (by simp [hb]), if_neg (by simp [hb])]
      exact filter_orderedInsert_key_eq a t ha l

/-- Inserting an element whose key differs from `t` leaves the key-`t`
subsequence unchanged. -/
theorem filter_orderedInsert_key_ne (a : RecentUpdate) (t : String)
    (ha : ¬ a.last_modified = t) :
    ∀ l : List RecentUpdate,
      (List.orderedInsert updDesc a l).filter (fun u => u.last_modified == t)
        = l.filter (fun u => u.last_modified == t)
  | [] => by simp [List.orderedInsert, ha]
  | b :: l => by
    by_cases hr : updDesc a b
    · rw [List.orderedInsert_of_le _ _ hr]
      simp [List.filter_cons, ha]
    · simp only [List.orderedInsert, if_neg hr]
      rw [List.filter_cons, List.filter_cons]
      rw [filter_orderedInsert_key_ne a t ha l]

/-- Stability of the modelled Python sort: for every timestamp `t`, the
subsequence of elements carrying `t` is preserved by the sort. -/
theorem filter_pySortDesc (t : String) :
    ∀ l : List RecentUpdate,
      (pySortDesc l).filter (fun u => u.last_modified == t)
        = l.filter (fun u => u.last_modified == t)
  | [] => rfl
  | a :: l => by
    show (List.orderedInsert updDesc a (List.insertionSort updDesc l)).filter _ = _
    by_cases ha : a.last_modified = t
    · rw [filter_orderedInsert_key_eq a t ha]
      rw [show List.insertionSort updDesc l = pySortDesc l from rfl]
      rw [filter_pySortDesc t l]
      simp [List.filter_cons, ha]
    · rw [filter_orderedInsert_key_ne a t ha]
      rw [show List.insertionSort updDesc l = pySortDesc l from rfl]
      rw [filter_pySortDesc t l]
      simp [List.filter_cons, ha]

/-- Splitting at the first colon of `a ++ ':' :: b` for colon-free `a`
recovers `(a, b)` exactly. -/
theorem splitFirstColon_append :
    ∀ (a : List Char), ':' ∉ a → ∀ b,
      splitFirstColon (a ++ ':' :: b) = some (a, b)
  | [], _, b => by simp [splitFirstColon]
  | c :: cs, ha, b => by
    have hc : ¬ c = ':' := fun e => ha (by rw [e]; exact List.mem_cons_self _ _)
    have ih := splitFirstColon_append cs (fun m => ha (List.mem_cons_of_mem _ m)) b
    simp [splitFirstColon, hc, ih]

/-- A colon-free character list has no split point. -/
theorem splitFirstColon_none : ∀ {l : List Char}, ':' ∉ l → splitFirstColon l = none
  | [], _ => rfl
  | c :: cs, h => by
    have hc : ¬ c = ':' := fun e => h (by rw [e]; exact List.mem_cons_self _ _)
    have ih := splitFirstColon_none (fun m => h (List.mem_cons_of_mem _ m))
    simp [splitFirstColon, hc, ih]

/-- Parsing a composite id whose source part is colon-free splits exactly at
the first colon; the native part may itself contain colons. -/
theorem parse_doc_id_split (src rest : String) (hsrc : ':' ∉ src.data) :
    parse_doc_id (src ++ ":" ++ rest) = some (src, rest) := by
  have hcolon : (":" : String).data = [':'] := rfl
  have hdata : (src ++ ":" ++ rest).data = src.data ++ ':' :: rest.data := by
    simp [String.data_append, hcolon]
  unfold parse_doc_id
  rw [hdata, splitFirstColon_append src.data hsrc rest.data]

/-- An id with no colon fails to parse. -/
theorem parse_doc_id_no_colon {s : String} (h : ':' ∉ s.data) :
    parse_doc_id s = none := by
  unfold parse_doc_id
  rw [splitFirstColon_none h]

/-! ### Claim theorems -/

/-- C10: for every list of fetched documents and every `max_length`, the
summary is exactly the contents joined with single spaces and truncated to
the first `max_length` characters (hence of length at most `max_length`),
the key points are a fixed three-element placeholder independent of the
input, and the source documents are exactly the input documents in order. -/
theorem generate_summary_spec (documents : List DocumentContent) (max_length : Nat) :
    (generate_summary documents max_length).summary
        = pyTake (pyJoin " " (documents.map (fun doc => doc.content))) max_length
    ∧ (generate_summary documents max_length).summary.length ≤ max_length
    ∧ (generate_summary documents max_length).key_points
        = ["Key point 1", "Key point 2", "Key point 3"]
    ∧ (generate_summary documents max_length).source_documents
        = documents.map (fun doc =>
            { id := doc.id, title := doc.title, source := doc.source }) := by
  refine ⟨rfl, ?_, rfl, rfl⟩
  show (String.mk ((pyJoin " " (documents.map (fun doc => doc.content))).data.take max_length)).length
      ≤ max_length
  rw [String.length_mk, List.length_take]
  omega

set_option maxRecDepth 8000

/-- C9 counterexample: a 250-character snippet is truncated to a
203-character string, so truncated snippets exceed the claimed 200-character
bound. -/
theorem snippet_bound_violated :
    snippet250.length = 250
    ∧ (truncate_snippet snippet250).length = 203
    ∧ 200 < (truncate_snippet snippet250).length := by
  have h : (truncate_snippet snippet250).length = 203 := rfl
  exact ⟨rfl, h, by omega⟩

/-- C9 (amended): a snippet longer than 200 characters is truncated to its
first 200 characters with a 3-character ellipsis marker appended, a snippet
of at most 200 characters is returned unchanged, and consequently every
produced snippet has length at most 203 (not 200: the ellipsis is appended
after the 200-character cut). -/
theorem snippet_truncation_amended (s : String) :
    (200 < s.length → truncate_snippet s = pyTake s 200 ++ "...")
    ∧ (s.length ≤ 200 → truncate_snippet s = s)
    ∧ (truncate_snippet s).length ≤ 203 := by
  refine ⟨?_, ?_, ?_⟩
  · intro h
    unfold truncate_snippet
    rw [if_pos h]
  · intro h
    unfold truncate_snippet
    rw [if_neg (by omega)]
  · unfold truncate_snippet
    by_cases h : s.length > 200
    · rw [if_pos h]
      rw [String.length_append]
      have hd : s.data.length = s.length := rfl
      have h1 : (pyTake s 200).length = 200 := by
        show (String.mk (s.data.take 200)).length = 200
        rw [String.length_mk, List.length_take]
        omega
      rw [h1]
      decide
    · rw [if_neg h]
      omega

/-- C9 witness: the amended theorem applied to a 250-character snippet and
to a short snippet. -/
theorem snippet_truncation_amended_witness :
    (200 < snippet250.length
      ∧ truncate_snippet snippet250 = pyTake snippet250 200 ++ "...")
    ∧ (("ok" : String).length ≤ 200 ∧ truncate_snippet "ok" = "ok") :=
  ⟨⟨by decide, (snippet_truncation_amended snippet250).1 (by decide)⟩,
   ⟨by decide, (snippet_truncation_amended "ok").2.1 (by decide)⟩⟩

/-- C8: a composite id with a colon is split at the first colon only (the
native id may itself contain colons), and an id with no colon is rejected
before any adapter I/O: it fails to parse, and the per-id step of
`summarize_content` contributes no document and performs no fetch for it. -/
theorem composite_id_parsing (src rest s : String) (adapters : AdapterMap)
    (uc : UserContext) (hsrc : ':' ∉ src.data) (hs : ':' ∉ s.data) :
    parse_doc_id (src ++ ":" ++ rest) = some (src, rest)
    ∧ parse_doc_id s = none
    ∧ summarize_contribution adapters uc s = ([], [])
    ∧ summarize_docs adapters uc [s] = []
    ∧ summarize_fetches adapters uc [s] = [] := by
  have h1 := parse_doc_id_split src rest hsrc
  have h2 := parse_doc_id_no_colon hs
  have h3 : summarize_contribution adapters uc s = ([], []) := by
    unfold summarize_contribution
    rw [h2]
  refine ⟨h1, h2, h3, ?_, ?_⟩
  · simp [summarize_docs, h3]
  · simp [summarize_fetches, h3]

/-- C8 witness: concrete ids, including a native id containing a colon. -/
theorem composite_id_parsing_witness :
    (':' ∉ ("gdrive" : String).data ∧ ':' ∉ ("malformed" : String).data)
    ∧ (parse_doc_id ("gdrive" ++ ":" ++ "a:b") = some ("gdrive", "a:b")
       ∧ parse_doc_id "malformed" = none
       ∧ summarize_contribution adaptersFix ucAliceFull "malformed" = ([], [])
       ∧ summarize_docs adaptersFix ucAliceFull ["malformed"] = []
       ∧ summarize_fetches adaptersFix ucAliceFull ["malformed"] = []) :=
  ⟨⟨by decide, by decide⟩,
   composite_id_parsing "gdrive" "a:b" "malformed" adaptersFix ucAliceFull
     (by decide) (by decide)⟩

/-- C2: callers with distinct identifiers derive distinct cache keys for
each of the three operations when all the other inputs agree, so a lookup
under one caller never finds an entry stored for the other. -/
theorem cache_keys_differ_across_callers (query : String)
    (sources : List DocumentSource) (document_ids : List String)
    (days max_results max_length : Nat) (uc1 uc2 : UserContext)
    (v : List SearchResult) (h : uc1.user_id ≠ uc2.user_id) :
    search_cache_key query sources max_results uc1
        ≠ search_cache_key query sources max_results uc2
    ∧ updates_cache_key sources days max_results uc1
        ≠ updates_cache_key sources days max_results uc2
    ∧ summarize_cache_key document_ids max_length uc1
        ≠ summarize_cache_key document_ids max_length uc2
    ∧ cacheFind (cachePut [] (search_cache_key query sources max_results uc1) v)
        (search_cache_key query sources max_results uc2) = none := by
  have hsearch : search_cache_key query sources max_results uc1
      ≠ search_cache_key query sources max_results uc2 := by
    intro he
    unfold search_cache_key at he
    exact h (cache_key_last_inj "search"
      [query, pyJoin "," (sortStrings (sources.map DocumentSource.pyStr)),
       toString max_results] he)
  refine ⟨hsearch, ?_, ?_, ?_⟩
  · intro he
    unfold updates_cache_key at he
    exact h (cache_key_last_inj "updates"
      [pyJoin "," (sortStrings (sources.map DocumentSource.pyStr)),
       toString days, toString max_results] he)
  · intro he
    unfold summarize_cache_key at he
    exact h (cache_key_last_inj "summarize"
      [pyJoin "," (sortStrings document_ids), toString max_length] he)
  · have hbeq : (search_cache_key query sources max_results uc1
        == search_cache_key query sources max_results uc2) = false :=
      beq_eq_false_iff_ne.mpr hsearch
    simp [cachePut, cacheFind, hbeq]

/-- C2 witness: two concrete callers with distinct identifiers. -/
theorem cache_keys_differ_across_callers_witness :
    ucAliceFull.user_id ≠ ucBob.user_id
    ∧ (search_cache_key "q" [DocumentSource.gdrive] 10 ucAliceFull
          ≠ search_cache_key "q" [DocumentSource.gdrive] 10 ucBob
       ∧ updates_cache_key [DocumentSource.gdrive] 7 10 ucAliceFull
          ≠ updates_cache_key [DocumentSource.gdrive] 7 10 ucBob
       ∧ summarize_cache_key ["gdrive:doc1"] 100 ucAliceFull
          ≠ summarize_cache_key ["gdrive:doc1"] 100 ucBob
       ∧ cacheFind
            (cachePut [] (search_cache_key "q" [DocumentSource.gdrive] 10 ucAliceFull)
              [resGdrive])
            (search_cache_key "q" [DocumentSource.gdrive] 10 ucBob) = none) :=
  ⟨by decide,
   cache_keys_differ_across_callers "q" [DocumentSource.gdrive] ["gdrive:doc1"]
     7 10 100 ucAliceFull ucBob [resGdrive] (by decide)⟩

/-- C6: on a cache miss by an authenticated caller, Search returns the
per-source contributions concatenated in the requested source order and
truncated to the first `max_results` elements, so the result length is at
most `max_results`. -/
theorem search_concatenation_truncation (query : String)
    (sources : List DocumentSource) (max_results : Nat) (uc : UserContext)
    (adapters : AdapterMap) (cacheEnabled : Bool)
    (cache : Cache (List SearchResult))
    (hauth : uc.authenticated = true)
    (hmiss : cacheFind cache (search_cache_key query sources max_results uc) = none) :
    (search_documents query sources max_results uc adapters cacheEnabled cache).result
        = Except.ok
            ((sources.flatMap (search_contribution adapters query max_results uc)).take
              max_results)
    ∧ ∀ l,
        (search_documents query sources max_results uc adapters cacheEnabled cache).result
            = Except.ok l → l.length ≤ max_results := by
  have hres : (search_documents query sources max_results uc adapters cacheEnabled cache).result
      = Except.ok
          ((sources.flatMap (search_contribution adapters query max_results uc)).take
            max_results) := by
    rw [search_documents_of_miss query sources max_results uc adapters cacheEnabled cache hmiss]
    unfold search_miss
    rw [hauth, if_neg (by decide : ¬ (true = false))]
  refine ⟨hres, ?_⟩
  intro l hl
  rw [hres] at hl
  injection hl with h2
  subst h2
  rw [List.length_take]
  omega

/-- C6 witness: a concrete authenticated single-source search on an empty
cache. -/
theorem search_concatenation_truncation_witness :
    ucAliceFull.authenticated = true
    ∧ cacheFind ([] : Cache (List SearchResult))
        (search_cache_key "q" [DocumentSource.gdrive] 10 ucAliceFull) = none
    ∧ ((search_documents "q" [DocumentSource.gdrive] 10 ucAliceFull adaptersFix true []).result
          = Except.ok (([DocumentSource.gdrive].flatMap
              (search_contribution adaptersFix "q" 10 ucAliceFull)).take 10)
       ∧ ∀ l,
          (search_documents "q" [DocumentSource.gdrive] 10 ucAliceFull adaptersFix true []).result
              = Except.ok l → l.length ≤ 10) :=
  ⟨rfl, rfl,
   search_concatenation_truncation "q" [DocumentSource.gdrive] 10 ucAliceFull
     adaptersFix true [] rfl rfl⟩

/-- C4: on a cache miss by an authenticated caller over permitted sources,
an adapter failure excludes only that adapter: the result is the
concatenated successful contributions (failing adapters contribute nothing),
the operation returns a success value, and when every registered adapter
fails the result is the empty list as a success. -/
theorem search_tolerates_adapter_failure (query : String)
    (sources : List DocumentSource) (max_results : Nat) (uc : UserContext)
    (adapters : AdapterMap) (cacheEnabled : Bool)
    (cache : Cache (List SearchResult))
    (hauth : uc.authenticated = true)
    (hmiss : cacheFind cache (search_cache_key query sources max_results uc) = none)
    (hperm : ∀ s ∈ sources, has_required_scopes uc [s.value ++ ":read"] = true) :
    (search_documents query sources max_results uc adapters cacheEnabled cache).result
        = Except.ok
            ((sources.flatMap (search_contribution adapters query max_results uc)).take
              max_results)
    ∧ ((∀ s ∈ sources, ∀ ad, adapters s = some ad →
          ∃ e, ad.search query max_results = Except.error e) →
        (search_documents query sources max_results uc adapters cacheEnabled cache).result
            = Except.ok []) := by
  have hres : (search_documents query sources max_results uc adapters cacheEnabled cache).result
      = Except.ok
          ((sources.flatMap (search_contribution adapters query max_results uc)).take
            max_results) := by
    rw [search_documents_of_miss query sources max_results uc adapters cacheEnabled cache hmiss]
    unfold search_miss
    rw [hauth, if_neg (by decide : ¬ (true = false))]
  refine ⟨hres, ?_⟩
  intro hfail
  rw [hres]
  have hnil : sources.flatMap (search_contribution adapters query max_results uc) = [] := by
    rw [List.flatMap_eq_nil_iff]
    intro s hs
    unfold search_contribution
    rw [hperm s hs, if_neg (by decide : ¬ (true = false))]
    cases had : adapters s with
    | none => rfl
    | some ad =>
      obtain ⟨e, he⟩ := hfail s hs ad had
      simp [he]
  rw [hnil, List.take_nil]

/-- C4 witness: a two-source search in which the Drive adapter raises and
the Notion adapter succeeds; the result contains exactly the Notion
results. -/
theorem search_tolerates_adapter_failure_witness :
    ucBoth.authenticated = true
    ∧ cacheFind ([] : Cache (List SearchResult))
        (search_cache_key "q" [DocumentSource.gdrive, DocumentSource.notion] 10 ucBoth) = none
    ∧ (∀ s ∈ [DocumentSource.gdrive, DocumentSource.notion],
        has_required_scopes ucBoth [s.value ++ ":read"] = true)
    ∧ ([DocumentSource.gdrive, DocumentSource.notion].flatMap
        (search_contribution adaptersAB "q" 10 ucBoth)) = [resNotion]
    ∧ ((search_documents "q" [DocumentSource.gdrive, DocumentSource.notion] 10 ucBoth
          adaptersAB true []).result
          = Except.ok (([DocumentSource.gdrive, DocumentSource.notion].flatMap
              (search_contribution adaptersAB "q" 10 ucBoth)).take 10)
       ∧ ((∀ s ∈ [DocumentSource.gdrive, DocumentSource.notion], ∀ ad,
            adaptersAB s = some ad → ∃ e, ad.search "q" 10 = Except.error e) →
          (search_documents "q" [DocumentSource.gdrive, DocumentSource.notion] 10 ucBoth
            adaptersAB true []).result = Except.ok [])) :=
  ⟨rfl, rfl, by decide, rfl,
   search_tolerates_adapter_failure "q" [DocumentSource.gdrive, DocumentSource.notion]
     10 ucBoth adaptersAB true [] rfl rfl (by decide)⟩

/-- C7: requested source lists that are permutations of each other derive
the same cache key, and the pre-truncation merged result lists of the miss
path are permutations of each other. -/
theorem search_source_permutation_invariant (query : String) (max_results : Nat)
    (uc : UserContext) (adapters : AdapterMap)
    (sources1 sources2 : List DocumentSource) (h : sources1.Perm sources2) :
    search_cache_key query sources1 max_results uc
        = search_cache_key query sources2 max_results uc
    ∧ (sources1.flatMap (search_contribution adapters query max_results uc)).Perm
        (sources2.flatMap (search_contribution adapters query max_results uc)) := by
  constructor
  · have hJ := sortStrings_eq_of_perm (h.map DocumentSource.pyStr)
    unfold search_cache_key
    rw [hJ]
  · exact h.flatMap_right _

/-- C7 witness: the two orders of a concrete two-source request. -/
theorem search_source_permutation_invariant_witness :
    ([DocumentSource.gdrive, DocumentSource.notion].Perm
        [DocumentSource.notion, DocumentSource.gdrive])
    ∧ (search_cache_key "q" [DocumentSource.gdrive, DocumentSource.notion] 5 ucBoth
          = search_cache_key "q" [DocumentSource.notion, DocumentSource.gdrive] 5 ucBoth
       ∧ ([DocumentSource.gdrive, DocumentSource.notion].flatMap
            (search_contribution adaptersAB "q" 5 ucBoth)).Perm
          ([DocumentSource.notion, DocumentSource.gdrive].flatMap
            (search_contribution adaptersAB "q" 5 ucBoth))) :=
  ⟨List.Perm.swap DocumentSource.notion DocumentSource.gdrive [],
   search_source_permutation_invariant "q" 5 ucBoth adaptersAB
     [DocumentSource.gdrive, DocumentSource.notion]
     [DocumentSource.notion, DocumentSource.gdrive]
     (List.Perm.swap DocumentSource.notion DocumentSource.gdrive [])⟩

/-- C5: on a cache miss by an authenticated caller, GetRecentUpdates returns
the merged per-source updates sorted by `last_modified` descending (a stable
sort: for every timestamp, the subsequence carrying it keeps the requested
source-enumeration order of the merge), truncated to the first `max_results`
elements. -/
theorem recent_updates_sorted_merge (sources : List DocumentSource)
    (days max_results : Nat) (uc : UserContext) (adapters : AdapterMap)
    (cacheEnabled : Bool) (cache : Cache (List RecentUpdate))
    (hauth : uc.authenticated = true)
    (hmiss : cacheFind cache (updates_cache_key sources days max_results uc) = none) :
    (get_recent_updates sources days max_results uc adapters cacheEnabled cache).result
        = Except.ok
            ((pySortDesc (sources.flatMap (updates_contribution adapters days uc))).take
              max_results)
    ∧ (pySortDesc (sources.flatMap (updates_contribution adapters days uc))).Sorted updDesc
    ∧ (pySortDesc (sources.flatMap (updates_contribution adapters days uc))).Perm
        (sources.flatMap (updates_contribution adapters days uc))
    ∧ (∀ t, (pySortDesc (sources.flatMap (updates_contribution adapters days uc))).filter
          (fun u => u.last_modified == t)
        = (sources.flatMap (updates_contribution adapters days uc)).filter
            (fun u => u.last_modified == t))
    ∧ ∀ l,
        (get_recent_updates sources days max_results uc adapters cacheEnabled cache).result
            = Except.ok l → l.length ≤ max_results := by
  have hres : (get_recent_updates sources days max_results uc adapters cacheEnabled cache).result
      = Except.ok
          ((pySortDesc (sources.flatMap (updates_contribution adapters days uc))).take
            max_results) := by
    rw [get_recent_updates_of_miss sources days max_results uc adapters cacheEnabled cache hmiss]
    unfold updates_miss
    rw [hauth, if_neg (by decide : ¬ (true = false))]
  refine ⟨hres, List.sorted_insertionSort updDesc _, List.perm_insertionSort updDesc _,
    fun t => filter_pySortDesc t _, ?_⟩
  intro l hl
  rw [hres] at hl
  injection hl with h2
  subst h2
  rw [List.length_take]
  omega

/-- C5 witness: a concrete authenticated single-source updates call on an
empty cache. -/
theorem recent_updates_sorted_merge_witness :
    ucAliceFull.authenticated = true
    ∧ cacheFind ([] : Cache (List RecentUpdate))
        (updates_cache_key [DocumentSource.gdrive] 7 10 ucAliceFull) = none
    ∧ ((get_recent_updates [DocumentSource.gdrive] 7 10 ucAliceFull adaptersFix true []).result
          = Except.ok
              ((pySortDesc ([DocumentSource.gdrive].flatMap
                  (updates_contribution adaptersFix 7 ucAliceFull))).take 10)
       ∧ (pySortDesc ([DocumentSource.gdrive].flatMap
            (updates_contribution adaptersFix 7 ucAliceFull))).Sorted updDesc
       ∧ (pySortDesc ([DocumentSource.gdrive].flatMap
            (updates_contribution adaptersFix 7 ucAliceFull))).Perm
          ([DocumentSource.gdrive].flatMap (updates_contribution adaptersFix 7 ucAliceFull))
       ∧ (∀ t, (pySortDesc ([DocumentSource.gdrive].flatMap
              (updates_contribution adaptersFix 7 ucAliceFull))).filter
            (fun u => u.last_modified == t)
          = ([DocumentSource.gdrive].flatMap
              (updates_contribution adaptersFix 7 ucAliceFull)).filter
              (fun u => u.last_modified == t))
       ∧ ∀ l,
          (get_recent_updates [DocumentSource.gdrive] 7 10 ucAliceFull adaptersFix true []).result
              = Except.ok l → l.length ≤ 10) :=
  ⟨rfl, rfl,
   recent_updates_sorted_merge [DocumentSource.gdrive] 7 10 ucAliceFull
     adaptersFix true [] rfl rfl⟩

/-- C1 (code bug): in all three operations the cache is consulted before the
authentication check, so an unauthenticated context carrying the caller
identifier of an earlier cached authenticated call is served the cached
result instead of an authentication error. -/
theorem unauthenticated_served_from_cache :
    ucAliceUnauth.authenticated = false
    ∧ (search_documents "q" [DocumentSource.gdrive] 10 ucAliceUnauth adaptersFix true
        cacheAfterSearch).result = Except.ok [resGdrive]
    ∧ (get_recent_updates [DocumentSource.gdrive] 7 10 ucAliceUnauth adaptersFix true
        cacheAfterUpdates).result = Except.ok [updGdrive]
    ∧ (summarize_content ["gdrive:doc1"] 100 ucAliceUnauth adaptersFix true
        cacheAfterSummary).result = Except.ok (generate_summary [docGdrive] 100) :=
  ⟨rfl, rfl, rfl, rfl⟩

/-- C3 counterexample: a cache-hit call violates the claim.  After alice's
authenticated search cached a gdrive-attributed result, the same caller
identifier with the gdrive scope revoked is served that cached result even
though the scope set lacks the gdrive read scope. -/
theorem denied_source_cached_results_leak :
    ucAliceRevoked.access_scopes.contains "gdrive:read" = false
    ∧ ucAliceRevoked.authenticated = true
    ∧ (search_documents "q" [DocumentSource.gdrive] 10 ucAliceRevoked adaptersFix true
        cacheAfterSearch).result = Except.ok [resGdrive]
    ∧ resGdrive.source = DocumentSource.gdrive :=
  ⟨rfl, rfl, rfl, rfl⟩

/-- C3 (amended): on a cache miss by an authenticated caller, a requested
source whose read scope is absent from the caller scope set is skipped: its
adapter is never invoked, the operation still returns a success value, and
(under the adapter contract that each adapter attributes its results to its
own source) the returned list contains no result attributed to that source.
The restriction to cache misses is forced by the counterexample: a cache-hit
call can return previously cached results attributed to a source whose scope
has since been revoked. -/
theorem denied_source_skipped_on_miss (query : String)
    (sources : List DocumentSource) (days max_results : Nat) (uc : UserContext)
    (adapters : AdapterMap) (cacheEnabled : Bool)
    (cacheS : Cache (List SearchResult)) (cacheU : Cache (List RecentUpdate))
    (s : DocumentSource)
    (hauth : uc.authenticated = true)
    (hscope : uc.access_scopes.contains (s.value ++ ":read") = false)
    (hmissS : cacheFind cacheS (search_cache_key query sources max_results uc) = none)
    (hmissU : cacheFind cacheU (updates_cache_key sources days max_results uc) = none)
    (hattrS : ∀ src ad rs, adapters src = some ad →
        ad.search query max_results = Except.ok rs → ∀ r ∈ rs, r.source = src)
    (hattrU : ∀ src ad us, adapters src = some ad →
        ad.get_recent_updates days = Except.ok us → ∀ u ∈ us, u.source = src) :
    (s ∉ (search_documents query sources max_results uc adapters cacheEnabled cacheS).invoked
      ∧ (∃ l, (search_documents query sources max_results uc adapters cacheEnabled cacheS).result
            = Except.ok l)
      ∧ (∀ l, (search_documents query sources max_results uc adapters cacheEnabled cacheS).result
            = Except.ok l → ∀ r ∈ l, r.source ≠ s))
    ∧ (s ∉ (get_recent_updates sources days max_results uc adapters cacheEnabled cacheU).invoked
      ∧ (∃ l, (get_recent_updates sources days max_results uc adapters cacheEnabled cacheU).result
            = Except.ok l)
      ∧ (∀ l, (get_recent_updates sources days max_results uc adapters cacheEnabled cacheU).result
            = Except.ok l → ∀ u ∈ l, u.source ≠ s)) := by
  have hhrs : has_required_scopes uc [s.value ++ ":read"] = false := by
    unfold has_required_scopes
    rw [hauth, if_neg (by decide : ¬ (true = false))]
    simpa using hscope
  have eSr : (search_documents query sources max_results uc adapters cacheEnabled cacheS).result
      = Except.ok ((sources.flatMap (search_contribution adapters query max_results uc)).take
          max_results) := by
    rw [search_documents_of_miss query sources max_results uc adapters cacheEnabled cacheS hmissS]
    unfold search_miss
    rw [hauth, if_neg (by decide : ¬ (true = false))]
  have eSi : (search_documents query sources max_results uc adapters cacheEnabled cacheS).invoked
      = sources.flatMap (search_invoked adapters uc) := by
    rw [search_documents_of_miss query sources max_results uc adapters cacheEnabled cacheS hmissS]
    unfold search_miss
    rw [hauth, if_neg (by decide : ¬ (true = false))]
  have eUr : (get_recent_updates sources days max_results uc adapters cacheEnabled cacheU).result
      = Except.ok ((pySortDesc (sources.flatMap (updates_contribution adapters days uc))).take
          max_results) := by
    rw [get_recent_updates_of_miss sources days max_results uc adapters cacheEnabled cacheU hmissU]
    unfold updates_miss
    rw [hauth, if_neg (by decide : ¬ (true = false))]
  have eUi : (get_recent_updates sources days max_results uc adapters cacheEnabled cacheU).invoked
      = sources.flatMap (updates_invoked adapters uc) := by
    rw [get_recent_updates_of_miss sources days max_results uc adapters cacheEnabled cacheU hmissU]
    unfold updates_miss
    rw [hauth, if_neg (by decide : ¬ (true = false))]
  refine ⟨⟨?_, ⟨_, eSr⟩, ?_⟩, ?_, ⟨_, eUr⟩, ?_⟩
  · rw [eSi]
    intro hmem
    rw [List.mem_flatMap] at hmem
    obtain ⟨src, hsrc, hmem2⟩ := hmem
    obtain ⟨heq, hok⟩ := mem_search_invoked hmem2
    subst heq
    rw [hhrs] at hok
    exact Bool.noConfusion hok
  · intro l hl r hr
    rw [eSr] at hl
    injection hl with h2
    subst h2
    have hr2 : r ∈ sources.flatMap (search_contribution adapters query max_results uc) :=
      List.take_subset _ _ hr
    rw [List.mem_flatMap] at hr2
    obtain ⟨src, hsrc, hrc⟩ := hr2
    obtain ⟨hok, ad, rs, had, hres2, hmem3⟩ := mem_search_contribution hrc
    intro hcontra
    have hsrceq : r.source = src := hattrS src ad rs had hres2 r hmem3
    rw [hsrceq] at hcontra
    subst hcontra
    rw [hhrs] at hok
    exact Bool.noConfusion hok
  · rw [eUi]
    intro hmem
    rw [List.mem_flatMap] at hmem
    obtain ⟨src, hsrc, hmem2⟩ := hmem
    obtain ⟨heq, hok⟩ := mem_updates_invoked hmem2
    subst heq
    rw [hhrs] at hok
    exact Bool.noConfusion hok
  · intro l hl u hu
    rw [eUr] at hl
    injection hl with h2
    subst h2
    have hu2 : u ∈ pySortDesc (sources.flatMap (updates_contribution adapters days uc)) :=
      List.take_subset _ _ hu
    have hu3 : u ∈ sources.flatMap (updates_contribution adapters days uc) :=
      (List.perm_insertionSort updDesc _).mem_iff.mp hu2
    rw [List.mem_flatMap] at hu3
    obtain ⟨src, hsrc, huc⟩ := hu3
    obtain ⟨hok, ad, us, had, hres2, hmem3⟩ := mem_updates_contribution huc
    intro hcontra
    have hsrceq : u.source = src := hattrU src ad us had hres2 u hmem3
    rw [hsrceq] at hcontra
    subst hcontra
    rw [hhrs] at hok
    exact Bool.noConfusion hok

/-- C3 witness: the revoked caller on empty caches, with the concrete Drive
adapter oracle, for both operations. -/
theorem denied_source_skipped_on_miss_witness :
    ucAliceRevoked.authenticated = true
    ∧ ucAliceRevoked.access_scopes.contains (DocumentSource.gdrive.value ++ ":read") = false
    ∧ ((DocumentSource.gdrive
          ∉ (search_documents "q" [DocumentSource.gdrive] 10 ucAliceRevoked adaptersFix
              true []).invoked
        ∧ (∃ l, (search_documents "q" [DocumentSource.gdrive] 10 ucAliceRevoked adaptersFix
              true []).result = Except.ok l)
        ∧ (∀ l, (search_documents "q" [DocumentSource.gdrive] 10 ucAliceRevoked adaptersFix
              true []).result = Except.ok l → ∀ r ∈ l, r.source ≠ DocumentSource.gdrive))
       ∧ (DocumentSource.gdrive
          ∉ (get_recent_updates [DocumentSource.gdrive] 7 10 ucAliceRevoked adaptersFix
              true []).invoked
        ∧ (∃ l, (get_recent_updates [DocumentSource.gdrive] 7 10 ucAliceRevoked adaptersFix
              true []).result = Except.ok l)
        ∧ (∀ l, (get_recent_updates [DocumentSource.gdrive] 7 10 ucAliceRevoked adaptersFix
              true []).result = Except.ok l → ∀ u ∈ l, u.source ≠ DocumentSource.gdrive))) := by
  refine ⟨rfl, rfl, ?_⟩
  refine denied_source_skipped_on_miss "q" [DocumentSource.gdrive] 7 10 ucAliceRevoked
    adaptersFix true [] [] DocumentSource.gdrive rfl rfl rfl rfl ?_ ?_
  · intro src ad rs had hres r hr
    cases src with
    | gdrive =>
      have had2 : some gdriveStubOk = some ad := had
      injection had2 with h
      subst h
      have hres2 : Except.ok [resGdrive] = Except.ok rs := hres
      injection hres2 with h2
      subst h2
      simp at hr
      subst hr
      rfl
    | notion => exact Option.noConfusion had
    | slack => exact Option.noConfusion had
    | confluence => exact Option.noConfusion had
  · intro src ad us had hres u hu
    cases src with
    | gdrive =>
      have had2 : some gdriveStubOk = some ad := had
      injection had2 with h
      subst h
      have hres2 : Except.ok [updGdrive] = Except.ok us := hres
      injection hres2 with h2
      subst h2
      simp at hu
      subst hu
      rfl
    | notion => exact Option.noConfusion had
    | slack => exact Option.noConfusion had
    | confluence => exact Option.noConfusion had

end WSA
